import Mathlib

/-!
Shallow embedding of the rotary-encoder driver (`src/RotaryEncoder.hpp`).

Timestamps (`micros()` values) and the pulse counter are modelled as
mathematical integers `Int`, matching the C++ `long`/`int` fields in the
regime where they do not overflow.  C++ integer division truncates toward
zero, so the one division in the source is embedded as `Int.tdiv`.
Pin reads (`digitalRead`) are modelled as an input parameter of each
interrupt handler: `pinBval : Int` for the rotary clock pin (the source
compares it with `0`) and `pinCHigh : Bool` for the button pin (the source
negates it).  The external event queue (owned by the consumer, declared in
`StateMachine.hpp`, outside this repository's driver logic) is modelled as
the list of events pushed by a call, in emission order.
-/

def DEBOUNCE_INTERVAL : Int := 5000

def LONG_PRESS_INTERVAL : Int := 3000000

def ACTIVITY_TIMEOUT : Int := 10000000

def BUTTON_UP : Bool := false

/-- Modelled from the spec: the `Event` values `SHORTPRESS` / `LONGPRESS`
pushed to the consumer's queue are declared in `StateMachine.hpp`, which is
not part of this repository's sources; the spec describes `Event` as a
tagged value, one of `ShortPress`, `LongPress`. -/
inductive Event where
  | SHORTPRESS
  | LONGPRESS
deriving DecidableEq, Repr

/-- The mutable fields of the `RotaryEncoder` class (its per-device state).
Pin numbers are omitted: pin reads enter the model as handler inputs. -/
structure RotaryEncoder where
  pulseCount : Int
  deBounceEnd : Int
  lastActivity : Int
  rotaryPulseStart : Int
  inDebounceDelay : Bool
  active : Bool
  buttonDown : Bool
  buttonState : Bool
  pressStart : Int
  pressEnd : Int
  accel : Bool
  pulseStarted : Bool
deriving DecidableEq, Repr

/-- `getPulseCount` (lines 74-78): returns the accumulated count and resets
it to zero.  First component is the return value, second the new state. -/
def getPulseCount (s : RotaryEncoder) : Int × RotaryEncoder :=
  (s.pulseCount, { s with pulseCount := 0 })

/-- `isActive` (lines 81-83). -/
def isActive (s : RotaryEncoder) : Bool :=
  s.active

/-- Lines 179-183 of `encoderIntHandler`: the step increment.  Base 1; if a
complete pulse was received and speed scaling (`accel`) is on, add
`1000000 / (3*pulseDuration)` (C++ truncating division). -/
def encoderIncrement (accel pulseReceived : Bool) (pulseDuration : Int) : Int :=
  if pulseReceived then
    if accel then 1 + Int.tdiv 1000000 (3 * pulseDuration) else 1
  else 1

/-- Lines 185-189 of `encoderIntHandler`: sample the clock pin, add the
increment if it reads `0`, otherwise subtract it, then clamp the count at
zero. -/
def applyRotation (s : RotaryEncoder) (pinBval increment : Int) : RotaryEncoder :=
  let s :=
    if pinBval = 0 then { s with pulseCount := s.pulseCount + increment }
    else { s with pulseCount := s.pulseCount - increment }
  if s.pulseCount < 0 then { s with pulseCount := 0 } else s

/-- `encoderIntHandler` (lines 151-191), the rotation-edge interrupt
handler.  `now` is the `micros()` reading at the edge and `pinBval` the
instantaneous clock-pin sample. -/
def encoderIntHandler (s : RotaryEncoder) (now : Int) (pinBval : Int) :
    RotaryEncoder :=
  let s := { s with active := true, lastActivity := now }
  if s.inDebounceDelay = false then
    let s := { s with inDebounceDelay := true, deBounceEnd := now + DEBOUNCE_INTERVAL }
    if s.pulseStarted = false then
      let s := { s with pulseStarted := true, rotaryPulseStart := now }
      applyRotation s pinBval (encoderIncrement s.accel false 0)
    else
      let pulseDuration := now - s.rotaryPulseStart
      let s := { s with pulseStarted := false }
      applyRotation s pinBval (encoderIncrement s.accel true pulseDuration)
  else s

/-- `buttonIntHandler` (lines 194-206), the button-edge interrupt handler.
`pinCHigh` is the instantaneous button-pin sample (`digitalRead(pinC)` as a
boolean); the source stores its negation in `buttonDown`. -/
def buttonIntHandler (s : RotaryEncoder) (now : Int) (pinCHigh : Bool) :
    RotaryEncoder :=
  let s := { s with active := true }
  if s.inDebounceDelay = false then
    { s with inDebounceDelay := true, lastActivity := now,
             deBounceEnd := now + DEBOUNCE_INTERVAL, buttonDown := !pinCHigh }
  else s

/-- Lines 105-121 of `scan`: the button state-transition step, reached only
after the debounce check.  Returns the new state and the list of events
pushed to the consumer queue (empty or a singleton). -/
def scanButton (s : RotaryEncoder) (now : Int) : RotaryEncoder × List Event :=
  if s.buttonDown ≠ s.buttonState then
    let s :=
      if s.buttonDown then { s with pressStart := now }
      else { s with pressEnd := now }
    if s.buttonDown = false then
      let ev :=
        if now - s.pressStart > LONG_PRESS_INTERVAL then Event.LONGPRESS
        else Event.SHORTPRESS
      ({ s with buttonState := s.buttonDown }, [ev])
    else ({ s with buttonState := s.buttonDown }, [])
  else (s, [])

/-- Lines 92-96 of `scan`: the activity-timeout check. -/
def scanActivity (s : RotaryEncoder) (now : Int) : RotaryEncoder :=
  if now > s.lastActivity + ACTIVITY_TIMEOUT ∨ now < s.lastActivity then
    { s with active := false, lastActivity := 0 }
  else s

/-- `scan` (lines 86-122), the periodic poll: activity-timeout check, then
debounce closure (early return while the window is open), then the button
step.  `now` is the `micros()` reading at the call. -/
def scan (s : RotaryEncoder) (now : Int) : RotaryEncoder × List Event :=
  let s := scanActivity s now
  if s.inDebounceDelay then
    if now > s.deBounceEnd then scanButton { s with inDebounceDelay := false } now
    else (s, [])
  else scanButton s now

/-! ## Helper lemmas -/

theorem applyRotation_pulseCount_nonneg (s : RotaryEncoder) (p i : Int) :
    0 ≤ (applyRotation s p i).pulseCount := by
  simp only [applyRotation]
  split_ifs <;> simp_all

theorem scanActivity_fields (s : RotaryEncoder) (now : Int) :
    (scanActivity s now).pulseCount = s.pulseCount ∧
    (scanActivity s now).inDebounceDelay = s.inDebounceDelay ∧
    (scanActivity s now).deBounceEnd = s.deBounceEnd ∧
    (scanActivity s now).buttonDown = s.buttonDown ∧
    (scanActivity s now).buttonState = s.buttonState ∧
    (scanActivity s now).pressStart = s.pressStart ∧
    (scanActivity s now).pressEnd = s.pressEnd := by
  simp only [scanActivity]
  split_ifs <;> simp

theorem scanButton_state_fields (s : RotaryEncoder) (now : Int) :
    ((scanButton s now).1).pulseCount = s.pulseCount ∧
    ((scanButton s now).1).active = s.active ∧
    ((scanButton s now).1).lastActivity = s.lastActivity ∧
    ((scanButton s now).1).inDebounceDelay = s.inDebounceDelay ∧
    ((scanButton s now).1).buttonDown = s.buttonDown := by
  simp only [scanButton]
  split_ifs <;> simp_all

theorem scan_pulseCount_eq (s : RotaryEncoder) (now : Int) :
    ((scan s now).1).pulseCount = s.pulseCount := by
  simp only [scan]
  split_ifs <;>
    simp [scanButton_state_fields, scanActivity_fields]

theorem scan_active_lastActivity (s : RotaryEncoder) (now : Int) :
    (scan s now).1.active = (scanActivity s now).active ∧
    (scan s now).1.lastActivity = (scanActivity s now).lastActivity := by
  simp only [scan]
  split_ifs <;> simp [scanButton_state_fields]

theorem scan_buttonDown_eq (s : RotaryEncoder) (now : Int) :
    (scan s now).1.buttonDown = s.buttonDown := by
  simp only [scan]
  split_ifs <;> simp [scanButton_state_fields, scanActivity_fields]

theorem scanButton_snd_nil_of_eq (s : RotaryEncoder) (now : Int)
    (h : s.buttonDown = s.buttonState) : (scanButton s now).2 = [] := by
  simp [scanButton, h]

theorem scan_snd_nil_of_eq (s : RotaryEncoder) (now : Int)
    (h : s.buttonDown = s.buttonState) : (scan s now).2 = [] := by
  have ha := scanActivity_fields s now
  simp only [scan]
  split_ifs <;>
    simp_all [scanButton_snd_nil_of_eq, scanButton]

/-- A state in which a debounce window is open: an edge at time 0 opened the
window running up to time 5000 and started a rotary pulse. -/
def windowOpenState : RotaryEncoder :=
  { pulseCount := 3, deBounceEnd := 5000, lastActivity := 0, rotaryPulseStart := 0,
    inDebounceDelay := true, active := true, buttonDown := false, buttonState := false,
    pressStart := 0, pressEnd := 0, accel := true, pulseStarted := true }

/-- An idle initial state (all counters zero, no window open). -/
def initEncoder : RotaryEncoder :=
  { pulseCount := 0, deBounceEnd := 0, lastActivity := 0, rotaryPulseStart := 0,
    inDebounceDelay := false, active := false, buttonDown := false, buttonState := false,
    pressStart := 0, pressEnd := 0, accel := true, pulseStarted := false }

/-! ## Claim C1 -/

/-- Claim C1 (counterexample): a rotation edge arriving 100µs after the edge
that opened the debounce window (closer than `DEBOUNCE_INTERVAL` = 5000µs)
does NOT leave every field of the state unchanged: it overwrites
`lastActivity` (and the state as a whole changes). -/
theorem rotation_edge_in_window_changes_state :
    (encoderIntHandler windowOpenState 100 1).lastActivity ≠
      windowOpenState.lastActivity ∧
    encoderIntHandler windowOpenState 100 1 ≠ windowOpenState := by
  decide

/-- Claim C1 (amended): while a debounce window is open, an edge is not
processed, but the handlers still mark activity: a rotation edge sets
`active := true` and `lastActivity := now` and changes nothing else; a
button edge sets `active := true` and changes nothing else. -/
theorem debounce_gate_blocks_state (s : RotaryEncoder) (now pinB : Int)
    (pinCHigh : Bool) (h : s.inDebounceDelay = true) :
    encoderIntHandler s now pinB = { s with active := true, lastActivity := now } ∧
    buttonIntHandler s now pinCHigh = { s with active := true } := by
  constructor
  · simp only [encoderIntHandler]
    split_ifs <;> simp_all
  · simp only [buttonIntHandler]
    split_ifs <;> simp_all

theorem debounce_gate_blocks_state_witness :
    encoderIntHandler windowOpenState 100 1 =
      { windowOpenState with active := true, lastActivity := 100 } ∧
    buttonIntHandler windowOpenState 100 true =
      { windowOpenState with active := true } :=
  debounce_gate_blocks_state windowOpenState 100 1 true (by decide)

/-! ## Claim C5 -/

/-- Claim C5: `pulseCount ≥ 0` is an invariant preserved by every operation:
the rotation handler clamps at zero, the button handler and `scan` never
touch the count, and draining resets it to zero; in particular the value
returned by `getPulseCount` is never negative. -/
theorem pulseCount_nonneg_invariant (s : RotaryEncoder) (now pinB : Int)
    (pinCHigh : Bool) (h : 0 ≤ s.pulseCount) :
    0 ≤ (encoderIntHandler s now pinB).pulseCount ∧
    0 ≤ (buttonIntHandler s now pinCHigh).pulseCount ∧
    0 ≤ ((scan s now).1).pulseCount ∧
    ((getPulseCount s).2).pulseCount = 0 ∧
    0 ≤ (getPulseCount s).1 := by
  refine ⟨?_, ?_, ?_, ?_, ?_⟩
  · simp only [encoderIntHandler]
    split_ifs <;> simp_all [applyRotation_pulseCount_nonneg]
  · simp only [buttonIntHandler]
    split_ifs <;> simp_all
  · rw [scan_pulseCount_eq]; exact h
  · simp [getPulseCount]
  · simpa [getPulseCount] using h

theorem pulseCount_nonneg_invariant_witness :
    0 ≤ (encoderIntHandler initEncoder 100 0).pulseCount ∧
    0 ≤ (buttonIntHandler initEncoder 100 true).pulseCount ∧
    0 ≤ ((scan initEncoder 100).1).pulseCount ∧
    ((getPulseCount initEncoder).2).pulseCount = 0 ∧
    0 ≤ (getPulseCount initEncoder).1 :=
  pulseCount_nonneg_invariant initEncoder 100 0 true (by decide)

/-! ## Claim C9 -/

/-- Claim C9: `getPulseCount` reads the accumulated count, resets it to
zero and returns the value read, so a second call with no intervening edge
returns zero. -/
theorem getPulseCount_drain (s : RotaryEncoder) :
    (getPulseCount s).1 = s.pulseCount ∧
    ((getPulseCount s).2).pulseCount = 0 ∧
    (getPulseCount ((getPulseCount s).2)).1 = 0 := by
  simp [getPulseCount]

/-! ## Claim C8 -/

/-- Claim C8: each `scan` call clears `active` and resets `lastActivity` to
zero exactly when `now > lastActivity + ACTIVITY_TIMEOUT` or
`now < lastActivity`; hence once the timeout has elapsed with no edge, the
next `scan` makes `isActive` false. -/
theorem scan_activity_timeout (s : RotaryEncoder) (now : Int) :
    ((now > s.lastActivity + ACTIVITY_TIMEOUT ∨ now < s.lastActivity) →
      (scan s now).1.active = false ∧ (scan s now).1.lastActivity = 0) ∧
    (¬(now > s.lastActivity + ACTIVITY_TIMEOUT ∨ now < s.lastActivity) →
      (scan s now).1.active = s.active ∧
      (scan s now).1.lastActivity = s.lastActivity) ∧
    (now > s.lastActivity + ACTIVITY_TIMEOUT → isActive (scan s now).1 = false) := by
  have h := scan_active_lastActivity s now
  simp only [scanActivity] at h
  refine ⟨?_, ?_, ?_⟩
  · intro hc
    rw [if_pos hc] at h
    simp_all
  · intro hc
    rw [if_neg hc] at h
    simp_all
  · intro hc
    rw [if_pos (Or.inl hc)] at h
    simp_all [isActive]

theorem scan_activity_timeout_witness :
    ((10000001 > initEncoder.lastActivity + ACTIVITY_TIMEOUT ∨
        10000001 < initEncoder.lastActivity) →
      (scan initEncoder 10000001).1.active = false ∧
      (scan initEncoder 10000001).1.lastActivity = 0) ∧
    (¬(10000001 > initEncoder.lastActivity + ACTIVITY_TIMEOUT ∨
        10000001 < initEncoder.lastActivity) →
      (scan initEncoder 10000001).1.active = initEncoder.active ∧
      (scan initEncoder 10000001).1.lastActivity = initEncoder.lastActivity) ∧
    (10000001 > initEncoder.lastActivity + ACTIVITY_TIMEOUT →
      isActive (scan initEncoder 10000001).1 = false) :=
  scan_activity_timeout initEncoder 10000001

/-! ## Claim C6 -/

/-- Claim C6 (counterexample): a button transition arriving while a
debounce window is open does NOT set `lastActivity := now`: the handler
updates `lastActivity` only in the branch that opens a new window. -/
theorem button_edge_in_window_keeps_lastActivity :
    (buttonIntHandler windowOpenState 100 true).lastActivity ≠ 100 ∧
    (buttonIntHandler windowOpenState 100 true).lastActivity =
      windowOpenState.lastActivity := by
  decide

/-- Claim C6 (amended): every button transition sets `active := true`;
only when no debounce window is open does the handler additionally set
`lastActivity := now`, open a window (`deBounceEnd := now +
DEBOUNCE_INTERVAL`), and latch `buttonDown` to the negation of the
instantaneous pin level. -/
theorem buttonIntHandler_behavior (s : RotaryEncoder) (now : Int)
    (pinCHigh : Bool) :
    (buttonIntHandler s now pinCHigh).active = true ∧
    (s.inDebounceDelay = false →
      buttonIntHandler s now pinCHigh =
        { s with active := true, inDebounceDelay := true, lastActivity := now,
                 deBounceEnd := now + DEBOUNCE_INTERVAL,
                 buttonDown := !pinCHigh }) ∧
    (s.inDebounceDelay = true →
      buttonIntHandler s now pinCHigh = { s with active := true }) := by
  refine ⟨?_, ?_, ?_⟩
  · simp only [buttonIntHandler]
    split_ifs <;> simp
  · intro h
    simp [buttonIntHandler, h]
  · intro h
    simp [buttonIntHandler, h]

/-! ## Claim C2 helpers -/

theorem scanButton_release (s : RotaryEncoder) (now : Int)
    (hd : s.buttonDown = false) (hs : s.buttonState = true) :
    scanButton s now =
      ({ s with pressEnd := now, buttonState := false },
       [if now - s.pressStart > LONG_PRESS_INTERVAL then Event.LONGPRESS
        else Event.SHORTPRESS]) := by
  simp only [scanButton, hd, hs]
  simp

theorem scanButton_press (s : RotaryEncoder) (now : Int)
    (hd : s.buttonDown = true) (hs : s.buttonState = false) :
    scanButton s now = ({ s with pressStart := now, buttonState := true }, []) := by
  simp only [scanButton, hd, hs]
  simp

theorem scan_closes_window (s : RotaryEncoder) (now : Int)
    (h1 : s.inDebounceDelay = true) (h2 : now > s.deBounceEnd) :
    scan s now =
      scanButton { scanActivity s now with inDebounceDelay := false } now := by
  obtain ⟨-, hidd, hdbe, -, -, -, -⟩ := scanActivity_fields s now
  simp only [scan]
  rw [if_pos (show (scanActivity s now).inDebounceDelay = true from hidd ▸ h1),
     if_pos (show now > (scanActivity s now).deBounceEnd from hdbe ▸ h2)]

theorem scan_no_window (s : RotaryEncoder) (now : Int)
    (h1 : s.inDebounceDelay = false) :
    scan s now = scanButton (scanActivity s now) now := by
  obtain ⟨-, hidd, -, -, -, -, -⟩ := scanActivity_fields s now
  simp only [scan]
  rw [if_neg (show ¬(scanActivity s now).inDebounceDelay = true by
    rw [hidd, h1]; simp)]

theorem scan_release_event (s : RotaryEncoder) (now : Int)
    (hreach : s.inDebounceDelay = true → now > s.deBounceEnd)
    (hd : s.buttonDown = false) (hs : s.buttonState = true) :
    (scan s now).2 =
      [if now - s.pressStart > LONG_PRESS_INTERVAL then Event.LONGPRESS
       else Event.SHORTPRESS] ∧
    (scan s now).1.buttonState = false ∧
    (scan s now).1.pressEnd = now := by
  obtain ⟨-, -, -, hbd, hbs, hps, -⟩ := scanActivity_fields s now
  by_cases h1 : s.inDebounceDelay = true
  · rw [scan_closes_window s now h1 (hreach h1),
       scanButton_release _ now (by simpa using hbd.trans hd)
         (by simpa using hbs.trans hs)]
    simp [hps]
  · rw [scan_no_window s now (by simpa using h1),
       scanButton_release _ now (hbd.trans hd) (hbs.trans hs)]
    simp [hps]

theorem scan_press_event (s : RotaryEncoder) (now : Int)
    (hreach : s.inDebounceDelay = true → now > s.deBounceEnd)
    (hd : s.buttonDown = true) (hs : s.buttonState = false) :
    (scan s now).2 = [] ∧ (scan s now).1.buttonState = true ∧
    (scan s now).1.pressStart = now := by
  obtain ⟨-, -, -, hbd, hbs, -, -⟩ := scanActivity_fields s now
  by_cases h1 : s.inDebounceDelay = true
  · rw [scan_closes_window s now h1 (hreach h1),
       scanButton_press _ now (by simpa using hbd.trans hd)
         (by simpa using hbs.trans hs)]
    simp
  · rw [scan_no_window s now (by simpa using h1),
       scanButton_press _ now (hbd.trans hd) (hbs.trans hs)]
    simp

/-! ## Claim C2 -/

/-- A state in which `scan` is about to observe a debounced button release:
the raw press was latched at time 0 (`pressStart = 0`), the raw level is now
released, and no debounce window is open. -/
def boundaryReleaseState : RotaryEncoder :=
  { pulseCount := 0, deBounceEnd := 100, lastActivity := 2995000,
    rotaryPulseStart := 0, inDebounceDelay := false, active := true,
    buttonDown := false, buttonState := true, pressStart := 0, pressEnd := 0,
    accel := true, pulseStarted := false }

/-- Claim C2 (counterexample): a press held for exactly
`LONG_PRESS_INTERVAL` microseconds (release observed at `now = 3000000`
with `pressStart = 0`) emits `SHORTPRESS`, not `LONGPRESS`: the source
comparison is strict (`now - pressStart > LONG_PRESS_INTERVAL`). -/
theorem boundary_press_emits_short :
    3000000 - boundaryReleaseState.pressStart = LONG_PRESS_INTERVAL ∧
    (scan boundaryReleaseState 3000000).2 = [Event.SHORTPRESS] ∧
    (scan boundaryReleaseState 3000000).2 ≠ [Event.LONGPRESS] := by
  decide

/-- Claim C2 (amended): when `scan` observes a debounced release it
records `pressEnd = now` and classifies the press by the held duration
`now - pressStart`: strictly greater than `LONG_PRESS_INTERVAL` emits
`LONGPRESS`, and less than or equal — including the exact boundary —
emits `SHORTPRESS`. -/
theorem scan_press_classification (s : RotaryEncoder) (now : Int)
    (hreach : s.inDebounceDelay = true → now > s.deBounceEnd)
    (hd : s.buttonDown = false) (hs : s.buttonState = true) :
    (scan s now).1.pressEnd = now ∧
    (now - s.pressStart > LONG_PRESS_INTERVAL →
      (scan s now).2 = [Event.LONGPRESS]) ∧
    (now - s.pressStart ≤ LONG_PRESS_INTERVAL →
      (scan s now).2 = [Event.SHORTPRESS]) := by
  obtain ⟨hev, -, hpe⟩ := scan_release_event s now hreach hd hs
  refine ⟨hpe, ?_, ?_⟩
  · intro hc
    rw [hev, if_pos hc]
  · intro hc
    rw [hev, if_neg (by omega)]

theorem scan_press_classification_witness :
    (scan boundaryReleaseState 3000000).1.pressEnd = 3000000 ∧
    (3000000 - boundaryReleaseState.pressStart > LONG_PRESS_INTERVAL →
      (scan boundaryReleaseState 3000000).2 = [Event.LONGPRESS]) ∧
    (3000000 - boundaryReleaseState.pressStart ≤ LONG_PRESS_INTERVAL →
      (scan boundaryReleaseState 3000000).2 = [Event.SHORTPRESS]) :=
  scan_press_classification boundaryReleaseState 3000000 (by decide) (by decide)
    (by decide)

/-! ## Claim C4 -/

/-- Claim C4: across a press-then-release cycle, `scan` pushes exactly one
event: none while raw and debounced state agree, none when the debounced
transition to pressed is observed, exactly one when the debounced
transition to released is observed — `buttonState` is updated in the same
call — and none on a later `scan` call for the same release. -/
theorem scan_one_event_per_cycle (s : RotaryEncoder) (now now2 : Int)
    (hreach : s.inDebounceDelay = true → now > s.deBounceEnd) :
    (s.buttonDown = s.buttonState → (scan s now).2 = []) ∧
    (s.buttonDown = true → s.buttonState = false →
      (scan s now).2 = [] ∧ (scan s now).1.buttonState = true) ∧
    (s.buttonDown = false → s.buttonState = true →
      (scan s now).2.length = 1 ∧ (scan s now).1.buttonState = false ∧
      (scan ((scan s now).1) now2).2 = []) := by
  refine ⟨fun h => scan_snd_nil_of_eq s now h, fun hd hs => ?_, fun hd hs => ?_⟩
  · obtain ⟨h1, h2, -⟩ := scan_press_event s now hreach hd hs
    exact ⟨h1, h2⟩
  · obtain ⟨h1, h2, -⟩ := scan_release_event s now hreach hd hs
    refine ⟨by rw [h1]; rfl, h2, ?_⟩
    apply scan_snd_nil_of_eq
    rw [scan_buttonDown_eq s now, hd, h2]

/-- A state in which a debounced release is pending: the raw press began at
time 10 and the raw level is released while `buttonState` still reads
pressed. -/
def releaseObservedState : RotaryEncoder :=
  { pulseCount := 0, deBounceEnd := 100, lastActivity := 400,
    rotaryPulseStart := 0, inDebounceDelay := false, active := true,
    buttonDown := false, buttonState := true, pressStart := 10, pressEnd := 0,
    accel := true, pulseStarted := false }

theorem scan_one_event_per_cycle_witness :
    (releaseObservedState.buttonDown = releaseObservedState.buttonState →
      (scan releaseObservedState 500).2 = []) ∧
    (releaseObservedState.buttonDown = true →
      releaseObservedState.buttonState = false →
      (scan releaseObservedState 500).2 = [] ∧
      (scan releaseObservedState 500).1.buttonState = true) ∧
    (releaseObservedState.buttonDown = false →
      releaseObservedState.buttonState = true →
      (scan releaseObservedState 500).2.length = 1 ∧
      (scan releaseObservedState 500).1.buttonState = false ∧
      (scan ((scan releaseObservedState 500).1) 600).2 = []) :=
  scan_one_event_per_cycle releaseObservedState 500 600 (by decide)

/-! ## Arithmetic helpers for the speed-scaled increment -/

theorem tdiv_scale_eq (T : Int) (hT : 0 < T) :
    Int.tdiv 1000000 (3 * T) = Int.tdiv 333333 T := by
  obtain ⟨t, rfl, ht⟩ : ∃ t : Nat, T = (t : Int) ∧ 0 < t :=
    ⟨T.toNat, (Int.toNat_of_nonneg hT.le).symm, by omega⟩
  have h3 : (3 * (t : Int)) = ((3 * t : Nat) : Int) := by push_cast; ring
  rw [h3, show ((1000000 : Int) = ((1000000 : Nat) : Int)) from rfl,
     show ((333333 : Int) = ((333333 : Nat) : Int)) from rfl,
     ← Int.ofNat_tdiv, ← Int.ofNat_tdiv, ← Nat.div_div_eq_div_mul]

theorem encoderIncrement_ge_one (a p : Bool) (d : Int) (hd : 0 ≤ d) :
    1 ≤ encoderIncrement a p d := by
  unfold encoderIncrement
  split_ifs with h1 h2
  · have := Int.tdiv_nonneg (by norm_num : (0 : Int) ≤ 1000000)
      (by omega : (0 : Int) ≤ 3 * d)
    omega
  · omega
  · omega

/-- The step increment the rotation handler computes at a given edge: the
trailing-edge case measures `now - rotaryPulseStart`, the leading-edge case
completes no pulse. -/
def stepIncrement (s : RotaryEncoder) (now : Int) : Int :=
  if s.pulseStarted then encoderIncrement s.accel true (now - s.rotaryPulseStart)
  else encoderIncrement s.accel false 0

theorem applyRotation_pulseCount (s : RotaryEncoder) (p i : Int) :
    (applyRotation s p i).pulseCount =
      if p = 0 then
        (if s.pulseCount + i < 0 then 0 else s.pulseCount + i)
      else
        (if s.pulseCount - i < 0 then 0 else s.pulseCount - i) := by
  simp only [applyRotation]
  split_ifs <;> simp_all

theorem encoderIntHandler_pulseCount (s : RotaryEncoder) (now pinB : Int)
    (hdb : s.inDebounceDelay = false) :
    (encoderIntHandler s now pinB).pulseCount =
      if pinB = 0 then
        (if s.pulseCount + stepIncrement s now < 0 then 0
         else s.pulseCount + stepIncrement s now)
      else
        (if s.pulseCount - stepIncrement s now < 0 then 0
         else s.pulseCount - stepIncrement s now) := by
  cases hps : s.pulseStarted <;>
    simp [encoderIntHandler, stepIncrement, applyRotation_pulseCount, hdb, hps]

/-! ## Claim C3 -/

/-- A state with the pulse counter already at zero and no debounce window
open. -/
def zeroCountState : RotaryEncoder :=
  { pulseCount := 0, deBounceEnd := 0, lastActivity := 0, rotaryPulseStart := 0,
    inDebounceDelay := false, active := true, buttonDown := false,
    buttonState := false, pressStart := 0, pressEnd := 0, accel := true,
    pulseStarted := false }

/-- Claim C3 (counterexample): a processed rotation edge with the clock pin
sampling high does NOT strictly decrease `pulseCount` when the count is
zero: the subtraction is clamped back to zero and the count is unchanged. -/
theorem high_clock_at_zero_not_decreasing :
    (encoderIntHandler zeroCountState 100 1).pulseCount =
      zeroCountState.pulseCount ∧
    ¬((encoderIntHandler zeroCountState 100 1).pulseCount <
      zeroCountState.pulseCount) := by
  decide

/-- Claim C3 (amended): for a processed rotation edge (no window open,
count nonnegative, time monotone), a low clock sample adds the computed
increment — a strict increase — while a high clock sample yields
`max (pulseCount - increment) 0`: a strict decrease whenever the count was
positive, but clamped (unchanged) at zero. -/
theorem encoder_direction_sign (s : RotaryEncoder) (now pinB : Int)
    (hdb : s.inDebounceDelay = false) (hpc : 0 ≤ s.pulseCount)
    (hdur : s.pulseStarted = true → s.rotaryPulseStart < now) :
    (pinB = 0 →
      (encoderIntHandler s now pinB).pulseCount =
        s.pulseCount + stepIncrement s now ∧
      s.pulseCount < (encoderIntHandler s now pinB).pulseCount) ∧
    (pinB ≠ 0 →
      (encoderIntHandler s now pinB).pulseCount =
        max (s.pulseCount - stepIncrement s now) 0 ∧
      (0 < s.pulseCount →
        (encoderIntHandler s now pinB).pulseCount < s.pulseCount)) := by
  have hinc : 1 ≤ stepIncrement s now := by
    unfold stepIncrement
    split_ifs with h
    · exact encoderIncrement_ge_one _ _ _ (by have := hdur h; omega)
    · exact encoderIncrement_ge_one _ _ _ le_rfl
  have hmain := encoderIntHandler_pulseCount s now pinB hdb
  constructor
  · intro hpin
    rw [if_pos hpin, if_neg (by omega)] at hmain
    exact ⟨hmain, by omega⟩
  · intro hpin
    rw [if_neg hpin] at hmain
    constructor
    · rw [hmain]
      split_ifs with h
      · exact (max_eq_right (le_of_lt h)).symm
      · exact (max_eq_left (by omega)).symm
    · intro hpos
      rw [hmain]
      split_ifs with h <;> omega

/-- A state with a positive pulse count and no debounce window open. -/
def windowClosedState : RotaryEncoder :=
  { pulseCount := 5, deBounceEnd := 0, lastActivity := 0, rotaryPulseStart := 0,
    inDebounceDelay := false, active := true, buttonDown := false,
    buttonState := false, pressStart := 0, pressEnd := 0, accel := true,
    pulseStarted := false }

theorem encoder_direction_sign_witness :
    ((0 : Int) = 0 →
      (encoderIntHandler windowClosedState 100 0).pulseCount =
        windowClosedState.pulseCount + stepIncrement windowClosedState 100 ∧
      windowClosedState.pulseCount <
        (encoderIntHandler windowClosedState 100 0).pulseCount) ∧
    ((0 : Int) ≠ 0 →
      (encoderIntHandler windowClosedState 100 0).pulseCount =
        max (windowClosedState.pulseCount - stepIncrement windowClosedState 100) 0 ∧
      (0 < windowClosedState.pulseCount →
        (encoderIntHandler windowClosedState 100 0).pulseCount <
          windowClosedState.pulseCount)) :=
  encoder_direction_sign windowClosedState 100 0 (by decide) (by decide)
    (by decide)

/-! ## Claim C7 -/

/-- The tuning constant of the speed scaling: the source computes
`1000000 / (3 * pulseDuration)`, which for positive durations equals
`⌊K / pulseDuration⌋` with `K = ⌊1000000 / 3⌋ = 333333`. -/
def K_tuning : Int := 333333

/-- Claim C7: with speed scaling enabled, a processed trailing edge with
measured pulse duration `T > 0` gets step increment exactly
`1 + ⌊K_tuning / T⌋`; the increment is never less than 1, is strictly
greater than 1 for small `T` (`T ≤ K_tuning`), and is exactly 1 when
scaling is disabled or the edge completes no pulse. -/
theorem speed_scaling_increment (a p : Bool) (T : Int) (hT : 0 < T) :
    encoderIncrement true true T = 1 + Int.tdiv K_tuning T ∧
    1 ≤ encoderIncrement true true T ∧
    (T ≤ K_tuning → 1 < encoderIncrement true true T) ∧
    (a = false ∨ p = false → encoderIncrement a p T = 1) := by
  have hK : K_tuning = 333333 := rfl
  have heq : encoderIncrement true true T = 1 + Int.tdiv K_tuning T := by
    unfold encoderIncrement
    rw [if_pos rfl, if_pos rfl, tdiv_scale_eq T hT, hK]
  refine ⟨heq, ?_, ?_, ?_⟩
  · exact encoderIncrement_ge_one _ _ _ hT.le
  · intro hsmall
    rw [heq, hK]
    obtain ⟨t, rfl, ht⟩ : ∃ t : Nat, T = (t : Int) ∧ 0 < t :=
      ⟨T.toNat, (Int.toNat_of_nonneg hT.le).symm, by omega⟩
    rw [show ((333333 : Int) = ((333333 : Nat) : Int)) from rfl, ← Int.ofNat_tdiv]
    have ht2 : t ≤ 333333 := by rw [hK] at hsmall; exact_mod_cast hsmall
    have : 1 ≤ 333333 / t := (Nat.one_le_div_iff ht).mpr ht2
    omega
  · rintro (rfl | rfl) <;> unfold encoderIncrement <;> split_ifs <;> simp_all

theorem speed_scaling_increment_witness :
    encoderIncrement true true 21000 = 1 + Int.tdiv K_tuning 21000 ∧
    1 ≤ encoderIncrement true true 21000 ∧
    ((21000 : Int) ≤ K_tuning → 1 < encoderIncrement true true 21000) ∧
    (false = false ∨ true = false → encoderIncrement false true 21000 = 1) :=
  speed_scaling_increment false true 21000 (by decide)

/-! ## Claim C10 -/

/-- Claim C10: under the protocol precondition that the trailing edge is
processed only after `scan` observed expiry of the window opened at the
leading edge — the window is closed, `deBounceEnd = rotaryPulseStart +
DEBOUNCE_INTERVAL`, and `now > deBounceEnd` — the measured pulse duration
`now - rotaryPulseStart` is strictly positive, so the speed-scaling divisor
`3 * pulseDuration` in the rotation handler is nonzero and the computed
increment is at least 1. -/
theorem pulse_division_safe (s : RotaryEncoder) (now : Int)
    (hp : s.pulseStarted = true) (hdb : s.inDebounceDelay = false)
    (hwin : s.deBounceEnd = s.rotaryPulseStart + DEBOUNCE_INTERVAL)
    (hnow : now > s.deBounceEnd) :
    0 < now - s.rotaryPulseStart ∧
    3 * (now - s.rotaryPulseStart) ≠ 0 ∧
    1 ≤ encoderIncrement s.accel s.pulseStarted (now - s.rotaryPulseStart) := by
  have hdi : DEBOUNCE_INTERVAL = 5000 := rfl
  have h1 : 0 < now - s.rotaryPulseStart := by
    rw [hwin, hdi] at hnow
    omega
  exact ⟨h1, by omega, encoderIncrement_ge_one _ _ _ h1.le⟩

/-- A state at a trailing rotation edge whose leading edge at time 0 opened
a debounce window that `scan` has since closed. -/
def trailingEdgeState : RotaryEncoder :=
  { pulseCount := 2, deBounceEnd := 5000, lastActivity := 0,
    rotaryPulseStart := 0, inDebounceDelay := false, active := true,
    buttonDown := false, buttonState := false, pressStart := 0, pressEnd := 0,
    accel := true, pulseStarted := true }

theorem pulse_division_safe_witness :
    0 < 6000 - trailingEdgeState.rotaryPulseStart ∧
    3 * (6000 - trailingEdgeState.rotaryPulseStart) ≠ 0 ∧
    1 ≤ encoderIncrement trailingEdgeState.accel trailingEdgeState.pulseStarted
      (6000 - trailingEdgeState.rotaryPulseStart) :=
  pulse_division_safe trailingEdgeState 6000 (by decide) (by decide) (by decide)
    (by decide)
